import Mathlib

/-!
Verification development for the StrategyLab backtest core.

The definitions below are a shallow embedding of `src/backtest/engine.rs`
(`BacktestEngine::evaluate_signals`, `run_single_test`, `run_backtest`),
`src/backtest/result.rs` (`BacktestResult`, `merge`,
`calculate_advanced_metrics`), `src/targets/mod.rs` (the default
`Target::run`) and `src/targets/guard_target.rs` (`GuardTarget::evaluate`).
Prices (`f32` in the source) are modelled as rationals; machine-float
rounding is not modelled, the control flow and the exact arithmetic are.
-/

namespace StrategyLab

/-- A daily bar (`DailyData` in the source): date, OHLC prices, volume.
Index 0 of a series is the most recent day. -/
structure Bar where
  date : Nat
  «open» : ℚ
  high : ℚ
  low : ℚ
  close : ℚ
  volume : Nat
deriving Repr, DecidableEq, Inhabited

/-- Reading `data[i]` of the source; total via a default bar.  Boundedness of
the indices actually used is settled separately (claim C10). -/
def getBar (data : List Bar) (i : Nat) : Bar :=
  data.getD i default

/-- The exit reason of a simulated trade (`ExitReason` in `result.rs`). -/
inductive ExitReason where
  | TargetReached
  | StopLoss
  | StopLossFailed
  | TimeExpired
deriving Repr, DecidableEq, BEq

/-- The per-trade outcome of the exit simulation: the local variables
`max_return`, `exit_day`, `exit_price`, `exit_reason`, `is_win`,
`is_stop_loss`, `is_stop_loss_fail` of `evaluate_signals` at the end of one
iteration of the signal loop. -/
structure TradeOutcome where
  max_return : ℚ
  exit_day : Nat
  exit_price : ℚ
  exit_reason : ExitReason
  is_win : Bool
  is_stop_loss : Bool
  is_stop_loss_fail : Bool
deriving Repr, DecidableEq

/-- The three exit-policy parameters a `Target` exposes to the engine
(`target_return()`, `stop_loss()`, `in_days()`). -/
structure TargetParams where
  target_return : ℚ
  stop_loss : ℚ
  in_days : Nat
deriving Repr, DecidableEq

/-- A buy signal `(String, Vec<DailyBar>, f32)` of the source. -/
structure Signal where
  symbol : String
  data : List Bar
  buy_price : ℚ
deriving Repr

/-- Result of the day-scan loop: either an early exit with a fully
determined outcome, or loop completion with the running maximum return. -/
inductive ScanResult where
  | exit (o : TradeOutcome)
  | expire (max_return : ℚ)
deriving Repr, DecidableEq

/-- The day-scan loop of `evaluate_signals` (engine.rs, the
`for i in (forecast_idx + 1)..=(forecast_idx + target.in_days())` loop),
run over an explicit list of day indices, threading the running
`max_return`. -/
def scanFrom (data : List Bar) (buy_price stop_loss_price : ℚ)
    (tp : TargetParams) (forecast_idx : Nat) :
    List Nat → ℚ → ScanResult
  | [], max_return => .expire max_return
  | i :: rest, max_return =>
    let bi := getBar data i
    let current_return := (bi.close - buy_price) / buy_price
    if current_return ≥ tp.target_return then
      .exit ⟨current_return, i - forecast_idx, bi.close, .TargetReached,
        true, false, false⟩
    else if forecast_idx + 1 < i ∧ bi.«open» < stop_loss_price then
      .exit ⟨(bi.«open» - buy_price) / buy_price, i - forecast_idx,
        bi.«open», .StopLossFailed, false, false, true⟩
    else if bi.low ≤ stop_loss_price ∧ bi.«open» ≥ stop_loss_price then
      .exit ⟨-tp.stop_loss, i - forecast_idx, stop_loss_price, .StopLoss,
        false, true, false⟩
    else
      scanFrom data buy_price stop_loss_price tp forecast_idx rest
        (if current_return > max_return then current_return else max_return)

/-- One iteration of the signal loop of `evaluate_signals`: `none` models the
two `continue` skips (invalid price, insufficient future data), `some o` the
simulated outcome.  Mirrors engine.rs lines 174-290: first-day gap check,
day-scan loop, time-expired fallback and the `in_days == 1` special case. -/
def simulateSignal (data : List Bar) (buy_price : ℚ) (tp : TargetParams)
    (forecast_idx : Nat) : Option TradeOutcome :=
  if buy_price ≤ 0 then none
  else if data.length ≤ forecast_idx + tp.in_days then none
  else
    let stop_loss_price := buy_price * (1 - tp.stop_loss)
    let d1 := getBar data (forecast_idx + 1)
    if d1.«open» < stop_loss_price then
      some ⟨(d1.«open» - buy_price) / buy_price, 1, d1.«open»,
        .StopLossFailed, false, false, true⟩
    else
      match scanFrom data buy_price stop_loss_price tp forecast_idx
          (List.range' (forecast_idx + 1) tp.in_days) (-1) with
      | .exit o => some o
      | .expire _ =>
        let last := getBar data (forecast_idx + tp.in_days)
        let expired : TradeOutcome :=
          ⟨(last.close - buy_price) / buy_price, tp.in_days, last.close,
            .TimeExpired, false, false, false⟩
        some (if tp.in_days = 1 then
          let d := getBar data (forecast_idx + 1)
          if d.low ≤ stop_loss_price then
            if d.«open» < stop_loss_price then
              { expired with
                  max_return := (d.«open» - buy_price) / buy_price,
                  exit_price := d.«open»,
                  exit_reason := .StopLossFailed,
                  is_stop_loss_fail := true }
            else
              { expired with
                  max_return := -tp.stop_loss,
                  exit_price := stop_loss_price,
                  exit_reason := .StopLoss,
                  is_stop_loss := true }
          else expired
        else expired)

/-- A `TradeDetail` record of `result.rs`; the source's `"Unknown"` date
strings are modelled as `none`. -/
structure TradeDetail where
  symbol : String
  entry_date : Option Nat
  entry_price : ℚ
  exit_date : Option Nat
  exit_price : ℚ
  return_pct : ℚ
  hold_days : Nat
  exit_reason : ExitReason
deriving Repr, DecidableEq

/-- A `BacktestResult` record of `result.rs`.  The source's `f32`
`sharpe_ratio` is `mean / sqrt(variance)` of the return list (0 when the
list is empty or the variance is 0); since the square root of a rational is
irrational in general we record the pair (mean, population variance), which
determines the source's value.  The source's `f32` `profit_factor` is
modelled as `Option ℚ` with `none` standing for `f32::INFINITY`. -/
structure BacktestResult where
  total_trades : Nat
  winning_trades : Nat
  losing_trades : Nat
  stop_loss_trades : Nat
  stop_loss_fail_trades : Nat
  win_rate : ℚ
  stop_loss_rate : ℚ
  stop_loss_fail_rate : ℚ
  avg_return : ℚ
  max_return : ℚ
  max_loss : ℚ
  avg_hold_days : ℚ
  sharpe_ratio : ℚ × ℚ
  max_drawdown : ℚ
  profit_factor : Option ℚ
  trade_details : Option (List TradeDetail)
deriving Repr, DecidableEq

/-- `BacktestResult::new()`: the all-zero result. -/
def BacktestResult.new : BacktestResult :=
  ⟨0, 0, 0, 0, 0, 0, 0, 0, 0, 0, 0, 0, (0, 0), 0, some 0, none⟩

/-- `BacktestResult::calculate_sharpe_ratio`: the (mean, population
variance) pair of the return list; `(0, 0)` for the empty list (where the
source returns 0.0 directly). -/
def calculate_sharpe_ratio (returns : List ℚ) : ℚ × ℚ :=
  if returns = [] then (0, 0)
  else
    let mean : ℚ := returns.sum / returns.length
    let variance : ℚ := (returns.map (fun r => (r - mean) ^ 2)).sum / returns.length
    (mean, variance)

/-- `BacktestResult::calculate_max_drawdown`: cumulative capital multipliers
`cum *= 1 + r` in list order, running peak, greatest `(peak - cum)/peak`. -/
def calculate_max_drawdown (returns : List ℚ) : ℚ :=
  if returns = [] then 0
  else
    let cumulative : List ℚ :=
      (returns.foldl (fun (acc : List ℚ × ℚ) ret =>
        let cum := acc.2 * (1 + ret)
        (acc.1 ++ [cum], cum)) ([], 1)).1
    (cumulative.foldl (fun (acc : ℚ × ℚ) value =>
      let peak := max acc.2 value
      let dd := (peak - value) / peak
      (max acc.1 dd, peak)) (0, cumulative.headD 1)).1

/-- `BacktestResult::calculate_advanced_metrics`: overwrites the Sharpe
pair, the max drawdown and the profit factor of a result from the given
return list (`0.001` is the source's epsilon, `none` its `f32::INFINITY`). -/
def calculate_advanced_metrics (r : BacktestResult) (returns : List ℚ) :
    BacktestResult :=
  { r with
      sharpe_ratio := calculate_sharpe_ratio returns
      max_drawdown := calculate_max_drawdown returns
      profit_factor :=
        if 0 < r.losing_trades then
          some (((r.winning_trades : ℚ) * max r.avg_return 0) /
            ((r.losing_trades : ℚ) * max |r.max_loss| (1 / 1000)))
        else none }

/-- The trade-detail record built at the end of one signal-loop iteration of
`evaluate_signals` (engine.rs lines 309-333), including the source's
length-guarded date lookups. -/
def mkTradeDetail (s : Signal) (o : TradeOutcome) (forecast_idx : Nat) :
    TradeDetail :=
  { symbol := s.symbol
    entry_date :=
      if s.data.length > forecast_idx then
        some (getBar s.data forecast_idx).date
      else none
    entry_price := s.buy_price
    exit_date :=
      if s.data.length > forecast_idx + o.exit_day then
        some (getBar s.data (forecast_idx + o.exit_day)).date
      else none
    exit_price := o.exit_price
    return_pct := o.max_return
    hold_days := o.exit_day
    exit_reason := o.exit_reason }

/-- The signals of the list that are actually simulated, paired with their
outcomes.  The source's loop decrements `total_trades` and `continue`s on a
skipped signal, touching no other accumulator, so the loop is a filterMap
over the signal list. -/
def simOutcomes (signals : List Signal) (tp : TargetParams)
    (forecast_idx : Nat) : List (Signal × TradeOutcome) :=
  signals.filterMap (fun s =>
    (simulateSignal s.data s.buy_price tp forecast_idx).map (fun o => (s, o)))

/-- `BacktestEngine::evaluate_signals` (engine.rs lines 155-395): simulate
every signal, fold the outcomes into counts, rates, return statistics and —
when `collect_trade_details` is set — the per-trade detail list, then apply
`calculate_advanced_metrics` to the per-trade return list. -/
def evaluateSignals (signals : List Signal) (tp : TargetParams)
    (forecast_idx : Nat) (collect_trade_details : Bool) : BacktestResult :=
  let sims := simOutcomes signals tp forecast_idx
  let total_trades := sims.length
  let winning_trades := sims.countP (fun so => so.2.is_win)
  let losing_trades := sims.countP (fun so => !so.2.is_win)
  let stop_loss_trades := sims.countP (fun so => !so.2.is_win && so.2.is_stop_loss)
  let stop_loss_fail_trades := sims.countP (fun so => !so.2.is_win && so.2.is_stop_loss_fail)
  let returns := sims.map (fun so => so.2.max_return)
  let hold_days : List ℚ := sims.map (fun so => (so.2.exit_day : ℚ))
  let trade_details :=
    if collect_trade_details then
      some (sims.map (fun so => mkTradeDetail so.1 so.2 forecast_idx))
    else none
  let win_rate : ℚ :=
    if 0 < total_trades then (winning_trades : ℚ) / total_trades else 0
  let stop_loss_rate : ℚ :=
    if 0 < total_trades then (stop_loss_trades : ℚ) / total_trades else 0
  let stop_loss_fail_rate : ℚ :=
    if 0 < total_trades then (stop_loss_fail_trades : ℚ) / total_trades else 0
  let avg_return : ℚ := if returns = [] then 0 else returns.sum / returns.length
  let max_return : ℚ := returns.foldl (fun m r => max r m) 0
  let max_loss : ℚ := returns.foldl (fun m r => min r m) 0
  let avg_hold_days : ℚ :=
    if hold_days = [] then 0 else hold_days.sum / hold_days.length
  calculate_advanced_metrics
    { total_trades, winning_trades, losing_trades, stop_loss_trades,
      stop_loss_fail_trades, win_rate, stop_loss_rate, stop_loss_fail_rate,
      avg_return, max_return, max_loss, avg_hold_days,
      sharpe_ratio := (0, 0), max_drawdown := 0, profit_factor := some 0,
      trade_details } returns

/-- `BacktestResult::merge` (result.rs lines 80-175): sum the counts, weight
the averages by trade count, max/min the extrema (seeded at -1 and 0 as in
the source), concatenate the detail lists, and recompute the advanced
metrics from the detail-derived return list. -/
def merge (results : List BacktestResult) : BacktestResult :=
  if results = [] then BacktestResult.new
  else
    let total_trades := (results.map (·.total_trades)).sum
    let winning_trades := (results.map (·.winning_trades)).sum
    let losing_trades := (results.map (·.losing_trades)).sum
    let stop_loss_trades := (results.map (·.stop_loss_trades)).sum
    let stop_loss_fail_trades := (results.map (·.stop_loss_fail_trades)).sum
    let total_return : ℚ :=
      (results.map (fun r => r.avg_return * (r.total_trades : ℚ))).sum
    let max_return : ℚ := results.foldl (fun m r => max m r.max_return) (-1)
    let max_loss : ℚ := results.foldl (fun m r => min m r.max_loss) 0
    let total_hold_days : ℚ :=
      (results.map (fun r => r.avg_hold_days * (r.total_trades : ℚ))).sum
    let all_returns : List ℚ :=
      results.foldl (fun acc r =>
        match r.trade_details with
        | some details => acc ++ details.map (·.return_pct)
        | none => acc) []
    let all_trade_details : List TradeDetail :=
      results.foldl (fun acc r =>
        match r.trade_details with
        | some details => acc ++ details
        | none => acc) []
    let win_rate : ℚ :=
      if 0 < total_trades then (winning_trades : ℚ) / total_trades else 0
    let stop_loss_rate : ℚ :=
      if 0 < total_trades then (stop_loss_trades : ℚ) / total_trades else 0
    let stop_loss_fail_rate : ℚ :=
      if 0 < total_trades then (stop_loss_fail_trades : ℚ) / total_trades else 0
    let avg_return : ℚ :=
      if 0 < total_trades then total_return / total_trades else 0
    let avg_hold_days : ℚ :=
      if 0 < total_trades then total_hold_days / total_trades else 0
    calculate_advanced_metrics
      { total_trades, winning_trades, losing_trades, stop_loss_trades,
        stop_loss_fail_trades, win_rate, stop_loss_rate, stop_loss_fail_rate,
        avg_return, max_return, max_loss, avg_hold_days,
        sharpe_ratio := (0, 0), max_drawdown := 0, profit_factor := some 0,
        trade_details :=
          if all_trade_details = [] then none else some all_trade_details }
      all_returns

/-- `GuardTarget::evaluate` (guard_target.rs lines 37-66): false on invalid
price or insufficient data, otherwise true iff no day of the horizon draws
down to the stop-loss fraction. -/
def GuardTarget.evaluate (stop_loss : ℚ) (in_days : Nat) (data : List Bar)
    (buy_price : ℚ) (forecast_idx : Nat) : Bool :=
  if buy_price ≤ 0 then false
  else if data.length ≤ forecast_idx + in_days then false
  else
    (List.range' (forecast_idx + 1) in_days).all (fun i =>
      !(((getBar data i).low - buy_price) / buy_price ≤ -stop_loss))

/-- The default `Target::run` (targets/mod.rs lines 24-47): the number of
candidates whose `evaluate` succeeds, divided by the number of candidates
(0 for the empty list).  The per-target `evaluate` is passed as a
function. -/
def Target.runDefault (evaluateFn : List Bar → ℚ → Nat → Bool)
    (candidates : List Signal) (forecast_idx : Nat) : ℚ :=
  if candidates.isEmpty then 0
  else
    ((candidates.countP (fun s => evaluateFn s.data s.buy_price forecast_idx) : ℚ)) /
      (candidates.length : ℚ)

/-- `BacktestEngine::run_single_test` (engine.rs lines 78-106): one pipeline
run at one offset — select, generate signals, score via the target's `run`.
The three polymorphic collaborators are passed as functions. -/
def run_single_test {α : Type} (selectorRun : List (String × List Bar) → Nat → α)
    (generate_signals : α → Nat → List Signal)
    (targetRun : List Signal → Nat → ℚ)
    (stock_data : List (String × List Bar)) (forecast_idx : Nat) : ℚ :=
  targetRun (generate_signals (selectorRun stock_data forecast_idx) forecast_idx)
    forecast_idx

/-- `BacktestEngine::run_backtest` (engine.rs lines 109-126): sum
`run_single_test` over the offsets `1..=back_days` and divide by
`back_days`. -/
def run_backtest {α : Type} (selectorRun : List (String × List Bar) → Nat → α)
    (generate_signals : α → Nat → List Signal)
    (targetRun : List Signal → Nat → ℚ)
    (stock_data : List (String × List Bar)) (back_days : Nat) : ℚ :=
  (((List.range' 1 back_days).map (fun idx =>
    run_single_test selectorRun generate_signals targetRun stock_data idx)).sum) /
    (back_days : ℚ)

/-- The target condition of the day-scan loop at day `i`:
`current_return >= target.target_return()`. -/
def targetTrigger (data : List Bar) (buy_price : ℚ) (tp : TargetParams)
    (i : Nat) : Prop :=
  ((getBar data i).close - buy_price) / buy_price ≥ tp.target_return

/-- The gap-down condition of the day-scan loop at day `i`:
`i > forecast_idx + 1 && data[i].open < stop_loss_price`. -/
def gapTrigger (data : List Bar) (stop_loss_price : ℚ) (forecast_idx i : Nat) :
    Prop :=
  forecast_idx + 1 < i ∧ (getBar data i).«open» < stop_loss_price

/-- The clean stop-loss condition of the day-scan loop at day `i`:
`data[i].low <= stop_loss_price && data[i].open >= stop_loss_price`. -/
def stopTrigger (data : List Bar) (stop_loss_price : ℚ) (i : Nat) : Prop :=
  (getBar data i).low ≤ stop_loss_price ∧ (getBar data i).«open» ≥ stop_loss_price

/-- No exit condition of the day-scan loop fires at day `i`. -/
def noTrigger (data : List Bar) (buy_price stop_loss_price : ℚ)
    (tp : TargetParams) (forecast_idx i : Nat) : Prop :=
  ¬ targetTrigger data buy_price tp i ∧
  ¬ gapTrigger data stop_loss_price forecast_idx i ∧
  ¬ stopTrigger data stop_loss_price i

/-- Result of the bounds-checked simulation: `skipped` models the source's
two `continue` guards, `oob` an out-of-bounds series access (a panic in the
source), `done` a completed simulation. -/
inductive SimResult where
  | skipped
  | oob
  | done (o : TradeOutcome)
deriving Repr, DecidableEq

/-- The day-scan loop with every series access bounds-checked (`List.get?`
instead of the defaulted read): `none` means the loop would read out of
bounds. -/
def scanFromChecked (data : List Bar) (buy_price stop_loss_price : ℚ)
    (tp : TargetParams) (forecast_idx : Nat) :
    List Nat → ℚ → Option ScanResult
  | [], max_return => some (.expire max_return)
  | i :: rest, max_return =>
    match data.get? i with
    | none => none
    | some bi =>
      let current_return := (bi.close - buy_price) / buy_price
      if current_return ≥ tp.target_return then
        some (.exit ⟨current_return, i - forecast_idx, bi.close,
          .TargetReached, true, false, false⟩)
      else if forecast_idx + 1 < i ∧ bi.«open» < stop_loss_price then
        some (.exit ⟨(bi.«open» - buy_price) / buy_price, i - forecast_idx,
          bi.«open», .StopLossFailed, false, false, true⟩)
      else if bi.low ≤ stop_loss_price ∧ bi.«open» ≥ stop_loss_price then
        some (.exit ⟨-tp.stop_loss, i - forecast_idx, stop_loss_price,
          .StopLoss, false, true, false⟩)
      else
        scanFromChecked data buy_price stop_loss_price tp forecast_idx rest
          (if current_return > max_return then current_return else max_return)

/-- `simulateSignal` with every series access bounds-checked: same structure
and same accesses as the source's signal-loop body, but an access beyond the
end of the series yields `SimResult.oob` instead of a defaulted bar. -/
def simulateSignalChecked (data : List Bar) (buy_price : ℚ)
    (tp : TargetParams) (forecast_idx : Nat) : SimResult :=
  if buy_price ≤ 0 then .skipped
  else if data.length ≤ forecast_idx + tp.in_days then .skipped
  else
    let stop_loss_price := buy_price * (1 - tp.stop_loss)
    match data.get? (forecast_idx + 1) with
    | none => .oob
    | some d1 =>
      if d1.«open» < stop_loss_price then
        .done ⟨(d1.«open» - buy_price) / buy_price, 1, d1.«open»,
          .StopLossFailed, false, false, true⟩
      else
        match scanFromChecked data buy_price stop_loss_price tp forecast_idx
            (List.range' (forecast_idx + 1) tp.in_days) (-1) with
        | none => .oob
        | some (.exit o) => .done o
        | some (.expire _) =>
          match data.get? (forecast_idx + tp.in_days) with
          | none => .oob
          | some last =>
            let expired : TradeOutcome :=
              ⟨(last.close - buy_price) / buy_price, tp.in_days, last.close,
                .TimeExpired, false, false, false⟩
            if tp.in_days = 1 then
              match data.get? (forecast_idx + 1) with
              | none => .oob
              | some d =>
                if d.low ≤ stop_loss_price then
                  if d.«open» < stop_loss_price then
                    .done { expired with
                        max_return := (d.«open» - buy_price) / buy_price,
                        exit_price := d.«open»,
                        exit_reason := .StopLossFailed,
                        is_stop_loss_fail := true }
                  else
                    .done { expired with
                        max_return := -tp.stop_loss,
                        exit_price := stop_loss_price,
                        exit_reason := .StopLoss,
                        is_stop_loss := true }
                else .done expired
            else .done expired

/-- Bar constructor for concrete test fixtures. -/
def mkBar (o h l c : ℚ) (d : Nat) : Bar :=
  ⟨d, o, h, l, c, 0⟩

/-- Fixture: a 3-day exit policy with 5% target and 5% stop. -/
def tpW3 : TargetParams := ⟨1 / 20, 1 / 20, 3⟩

/-- Fixture: a 1-day exit policy with 5% target and 5% stop. -/
def tpW1 : TargetParams := ⟨1 / 20, 1 / 20, 1⟩

/-- Fixture series: day 1 opens at 9, below the 9.5 stop price of a buy at
10 with 5% stop (the spec's gap-failure scenario). -/
def dataGapW : List Bar :=
  [mkBar 10 10 10 10 100, mkBar 9 9 9 9 101, mkBar 12 12 12 12 102,
   mkBar 12 12 12 12 103]

/-- Fixture series: on day 1 both the target condition (close 10.6 ≥ 10.5)
and the clean-stop condition (low 9.4 ≤ 9.5 ≤ open 10) hold for a buy at
10 under `tpW3`. -/
def dataBothW : List Bar :=
  [mkBar 10 10 10 10 100, mkBar 10 (53 / 5) (47 / 5) (53 / 5) 101,
   mkBar 9 9 9 9 102, mkBar 9 9 9 9 103]

/-- Fixture series: the spec's clean-stop scenario for a buy at 10 under
`tpW3` — day 1 open 10.1 low 9.6 close 9.8, day 2 open 9.7 low 9.2
close 9.4. -/
def dataCleanW : List Bar :=
  [mkBar 10 10 10 10 100,
   mkBar (101 / 10) (101 / 10) (48 / 5) (49 / 5) 101,
   mkBar (97 / 10) (97 / 10) (46 / 5) (47 / 5) 102,
   mkBar 10 10 10 10 103]

/-- Fixture signal: a clean stop-loss on day 1 under `tpW1` for a buy at 10
(open 10, low 9, close 9.2) — its only per-trade return is -5%. -/
def sigStopW : Signal :=
  ⟨"s", [mkBar 10 10 10 10 100, mkBar 10 10 9 (46 / 5) 101], 10⟩

/-- Fixture signal: the target is reached on day 1 under `tpW1` for a buy at
10 (close 11, a 10% return). -/
def sigWinW : Signal :=
  ⟨"w", [mkBar 10 10 10 10 100, mkBar 10 11 10 11 101], 10⟩

/-- Fixture signal: a flat series on which `GuardTarget::evaluate` with a
10% stop over 3 days succeeds for a buy at 10. -/
def sigGoodW : Signal :=
  ⟨"g", [mkBar 10 10 10 10 100, mkBar 10 10 10 10 101, mkBar 10 10 10 10 102,
    mkBar 10 10 10 10 103, mkBar 10 10 10 10 104], 10⟩

/-- Fixture signal: same series as `sigGoodW` but with `buy_price = 0`, the
source's "no trade" marker. -/
def sigBadW : Signal :=
  ⟨"b", [mkBar 10 10 10 10 100, mkBar 10 10 10 10 101, mkBar 10 10 10 10 102,
    mkBar 10 10 10 10 103, mkBar 10 10 10 10 104], 0⟩

/-- Fixture: an exit policy with a zero-day horizon (the degenerate
configuration outside the interface's `horizon_days ≥ 1` domain). -/
def tpZeroW : TargetParams := ⟨1 / 20, 1 / 20, 0⟩

/-- The five trade-count fields of a result, as one tuple. -/
def countsOf (r : BacktestResult) : Nat × Nat × Nat × Nat × Nat :=
  (r.total_trades, r.winning_trades, r.losing_trades, r.stop_loss_trades,
    r.stop_loss_fail_trades)

/-- Every field of a result except the optional per-trade detail list. -/
def numericFields (r : BacktestResult) :
    (Nat × Nat × Nat × Nat × Nat) × (ℚ × ℚ × ℚ) × (ℚ × ℚ × ℚ × ℚ) ×
      ((ℚ × ℚ) × ℚ × Option ℚ) :=
  ((r.total_trades, r.winning_trades, r.losing_trades, r.stop_loss_trades,
      r.stop_loss_fail_trades),
    (r.win_rate, r.stop_loss_rate, r.stop_loss_fail_rate),
    (r.avg_return, r.max_return, r.max_loss, r.avg_hold_days),
    (r.sharpe_ratio, r.max_drawdown, r.profit_factor))

/-- The list of per-trade returns of one evaluation (the `returns` vector of
`evaluate_signals`). -/
def returnsOf (signals : List Signal) (tp : TargetParams)
    (forecast_idx : Nat) : List ℚ :=
  (simOutcomes signals tp forecast_idx).map (fun so => so.2.max_return)

/-- The number of simulated trades of one evaluation that exit for the given
reason. -/
def reasonCount (signals : List Signal) (tp : TargetParams)
    (forecast_idx : Nat) (reason : ExitReason) : Nat :=
  (simOutcomes signals tp forecast_idx).countP
    (fun so => decide (so.2.exit_reason = reason))

/-- The outcome's Boolean classification flags agree with its exit reason:
exactly one of the four reason classes holds. -/
def FlagsOk (o : TradeOutcome) : Prop :=
  (o.is_win = true ↔ o.exit_reason = .TargetReached) ∧
  (o.is_win = false ∧ o.is_stop_loss = true ↔ o.exit_reason = .StopLoss) ∧
  (o.is_win = false ∧ o.is_stop_loss_fail = true ↔
    o.exit_reason = .StopLossFailed) ∧
  (o.is_win = false ∧ o.is_stop_loss = false ∧ o.is_stop_loss_fail = false ↔
    o.exit_reason = .TimeExpired)

/-!  Helper lemmas about the day-scan loop. -/

theorem scanFrom_cons_target {data : List Bar} {buy_price stop_loss_price : ℚ}
    {tp : TargetParams} {forecast_idx i : Nat}
    (h : targetTrigger data buy_price tp i) (rest : List Nat) (m : ℚ) :
    scanFrom data buy_price stop_loss_price tp forecast_idx (i :: rest) m =
      .exit ⟨((getBar data i).close - buy_price) / buy_price, i - forecast_idx,
        (getBar data i).close, .TargetReached, true, false, false⟩ := by
  have h1 : ((getBar data i).close - buy_price) / buy_price ≥ tp.target_return := h
  simp only [scanFrom]
  rw [if_pos h1]

theorem scanFrom_cons_stop {data : List Bar} {buy_price stop_loss_price : ℚ}
    {tp : TargetParams} {forecast_idx i : Nat}
    (h1 : ¬ targetTrigger data buy_price tp i)
    (h2 : ¬ gapTrigger data stop_loss_price forecast_idx i)
    (h3 : stopTrigger data stop_loss_price i) (rest : List Nat) (m : ℚ) :
    scanFrom data buy_price stop_loss_price tp forecast_idx (i :: rest) m =
      .exit ⟨-tp.stop_loss, i - forecast_idx, stop_loss_price, .StopLoss,
        false, true, false⟩ := by
  have h1b : ¬ (((getBar data i).close - buy_price) / buy_price ≥ tp.target_return) := h1
  have h2b : ¬ (forecast_idx + 1 < i ∧ (getBar data i).«open» < stop_loss_price) := h2
  have h3b : (getBar data i).low ≤ stop_loss_price ∧
      (getBar data i).«open» ≥ stop_loss_price := h3
  simp only [scanFrom]
  rw [if_neg h1b, if_neg h2b, if_pos h3b]

theorem scanFrom_cons_of_noTrigger {data : List Bar}
    {buy_price stop_loss_price : ℚ} {tp : TargetParams} {forecast_idx i : Nat}
    (h : noTrigger data buy_price stop_loss_price tp forecast_idx i)
    (rest : List Nat) (m : ℚ) :
    scanFrom data buy_price stop_loss_price tp forecast_idx (i :: rest) m =
      scanFrom data buy_price stop_loss_price tp forecast_idx rest
        (if ((getBar data i).close - buy_price) / buy_price > m then
          ((getBar data i).close - buy_price) / buy_price else m) := by
  obtain ⟨h1, h2, h3⟩ := h
  have h1b : ¬ (((getBar data i).close - buy_price) / buy_price ≥ tp.target_return) := h1
  have h2b : ¬ (forecast_idx + 1 < i ∧ (getBar data i).«open» < stop_loss_price) := h2
  have h3b : ¬ ((getBar data i).low ≤ stop_loss_price ∧
      (getBar data i).«open» ≥ stop_loss_price) := h3
  simp only [scanFrom]
  rw [if_neg h1b, if_neg h2b, if_neg h3b]

theorem scanFrom_append_of_noTrigger {data : List Bar}
    {buy_price stop_loss_price : ℚ} {tp : TargetParams} {forecast_idx : Nat}
    (l1 l2 : List Nat) (m : ℚ)
    (h : ∀ i ∈ l1, noTrigger data buy_price stop_loss_price tp forecast_idx i) :
    ∃ m2, scanFrom data buy_price stop_loss_price tp forecast_idx (l1 ++ l2) m =
      scanFrom data buy_price stop_loss_price tp forecast_idx l2 m2 := by
  induction l1 generalizing m with
  | nil => exact ⟨m, rfl⟩
  | cons a t ih =>
    rw [List.cons_append,
      scanFrom_cons_of_noTrigger (h a (List.mem_cons_self a t))]
    exact ih _ (fun i hi => h i (List.mem_cons_of_mem a hi))

/-- Splitting the scanned range at a day `i` of the horizon. -/
theorem range'_split_at {forecast_idx i n : Nat}
    (h1 : forecast_idx + 1 ≤ i) (h2 : i ≤ forecast_idx + n) :
    List.range' (forecast_idx + 1) n =
      List.range' (forecast_idx + 1) (i - (forecast_idx + 1)) ++
        (i :: List.range' (i + 1) (forecast_idx + n - i)) := by
  have h3 := List.range'_append_1 (forecast_idx + 1) (i - (forecast_idx + 1))
    (forecast_idx + n - i + 1)
  rw [show forecast_idx + 1 + (i - (forecast_idx + 1)) = i from by omega,
    show forecast_idx + n - i + 1 + (i - (forecast_idx + 1)) = n from by omega]
    at h3
  rw [← h3, List.range'_succ]

/-!  Claim theorems. -/

/-- C1: if the first tradable day's open gaps below the stop-loss price, the
outcome is StopLossFailed at that open, with `exit_day = 1` and return
`(open - buy_price) / buy_price`; the result depends on no later day of the
series. -/
theorem claim_C1 (data : List Bar) (buy_price : ℚ) (tp : TargetParams)
    (forecast_idx : Nat) (hbp : 0 < buy_price)
    (hlen : forecast_idx + tp.in_days < data.length)
    (hgap : (getBar data (forecast_idx + 1)).«open» <
      buy_price * (1 - tp.stop_loss)) :
    simulateSignal data buy_price tp forecast_idx =
      some ⟨((getBar data (forecast_idx + 1)).«open» - buy_price) / buy_price,
        1, (getBar data (forecast_idx + 1)).«open», .StopLossFailed,
        false, false, true⟩ ∧
    ∀ data2 : List Bar, data2.length = data.length →
      getBar data2 (forecast_idx + 1) = getBar data (forecast_idx + 1) →
      simulateSignal data2 buy_price tp forecast_idx =
        simulateSignal data buy_price tp forecast_idx := by
  have h1 : ¬ buy_price ≤ 0 := not_le.mpr hbp
  have h2 : ¬ data.length ≤ forecast_idx + tp.in_days := not_le.mpr hlen
  have hmain : simulateSignal data buy_price tp forecast_idx =
      some ⟨((getBar data (forecast_idx + 1)).«open» - buy_price) / buy_price,
        1, (getBar data (forecast_idx + 1)).«open», .StopLossFailed,
        false, false, true⟩ := by
    simp only [simulateSignal, if_neg h1, if_neg h2, if_pos hgap]
  refine ⟨hmain, fun data2 hl he => ?_⟩
  have h2b : ¬ data2.length ≤ forecast_idx + tp.in_days := by
    rw [hl]; exact h2
  have hgap2 : (getBar data2 (forecast_idx + 1)).«open» <
      buy_price * (1 - tp.stop_loss) := by rw [he]; exact hgap
  have hmain2 : simulateSignal data2 buy_price tp forecast_idx =
      some ⟨((getBar data2 (forecast_idx + 1)).«open» - buy_price) / buy_price,
        1, (getBar data2 (forecast_idx + 1)).«open», .StopLossFailed,
        false, false, true⟩ := by
    simp only [simulateSignal, if_neg h1, if_neg h2b, if_pos hgap2]
  rw [hmain, hmain2, he]

/-- C1 witness: the spec's gap-failure scenario — buy at 10, 5% stop, day 1
opens at 9: StopLossFailed, exit price 9, return -10%, exit day 1. -/
theorem claim_C1_witness :
    simulateSignal dataGapW 10 tpW3 0 =
      some ⟨-(1 / 10), 1, 9, .StopLossFailed, false, false, true⟩ := by
  have h := (claim_C1 dataGapW 10 tpW3 0 (by norm_num)
    (by norm_num [dataGapW, tpW3])
    (by norm_num [dataGapW, tpW3, getBar, mkBar])).1
  rw [h]
  norm_num [dataGapW, getBar, mkBar]

/-- C2: on the first day of the horizon at which any exit condition fires,
if the target condition holds — even if a stop condition (gap-down or clean
intraday touch) holds on the same day — the outcome is TargetReached at that
day's close: the target check precedes the stop checks in scan order. -/
theorem claim_C2 (data : List Bar) (buy_price : ℚ) (tp : TargetParams)
    (forecast_idx i : Nat) (hbp : 0 < buy_price)
    (hlen : forecast_idx + tp.in_days < data.length)
    (hday1 : ¬ (getBar data (forecast_idx + 1)).«open» <
      buy_price * (1 - tp.stop_loss))
    (hi1 : forecast_idx + 1 ≤ i) (hi2 : i ≤ forecast_idx + tp.in_days)
    (hbefore : ∀ j, forecast_idx + 1 ≤ j → j < i →
      noTrigger data buy_price (buy_price * (1 - tp.stop_loss)) tp forecast_idx j)
    (htgt : targetTrigger data buy_price tp i)
    (_hstop : gapTrigger data (buy_price * (1 - tp.stop_loss)) forecast_idx i ∨
      stopTrigger data (buy_price * (1 - tp.stop_loss)) i) :
    simulateSignal data buy_price tp forecast_idx =
      some ⟨((getBar data i).close - buy_price) / buy_price, i - forecast_idx,
        (getBar data i).close, .TargetReached, true, false, false⟩ := by
  have h1 : ¬ buy_price ≤ 0 := not_le.mpr hbp
  have h2 : ¬ data.length ≤ forecast_idx + tp.in_days := not_le.mpr hlen
  have hscan : scanFrom data buy_price (buy_price * (1 - tp.stop_loss)) tp
      forecast_idx (List.range' (forecast_idx + 1) tp.in_days) (-1) =
      .exit ⟨((getBar data i).close - buy_price) / buy_price, i - forecast_idx,
        (getBar data i).close, .TargetReached, true, false, false⟩ := by
    rw [range'_split_at hi1 hi2]
    obtain ⟨m2, hm⟩ := scanFrom_append_of_noTrigger
      (List.range' (forecast_idx + 1) (i - (forecast_idx + 1))) _ (-1)
      (fun j hj => by
        rw [List.mem_range'_1] at hj
        exact hbefore j hj.1 (by omega))
    rw [hm]
    exact scanFrom_cons_target htgt _ _
  simp only [simulateSignal, if_neg h1, if_neg h2, if_neg hday1, hscan]

/-- C2 witness: buy at 10 under the 3-day 5%/5% policy; on day 1 the close
10.6 reaches the target while the low 9.4 also touches the 9.5 stop price —
the outcome is TargetReached. -/
theorem claim_C2_witness :
    simulateSignal dataBothW 10 tpW3 0 =
      some ⟨3 / 50, 1, 53 / 5, .TargetReached, true, false, false⟩ := by
  have h := claim_C2 dataBothW 10 tpW3 0 1 (by norm_num)
    (by norm_num [dataBothW, tpW3])
    (by norm_num [dataBothW, tpW3, getBar, mkBar])
    (by norm_num) (by norm_num [tpW3])
    (fun j hj1 hj2 => absurd (Nat.lt_of_le_of_lt hj1 hj2) (Nat.lt_irrefl 1))
    (by norm_num [targetTrigger, dataBothW, tpW3, getBar, mkBar])
    (Or.inr (by norm_num [stopTrigger, dataBothW, tpW3, getBar, mkBar]))
  rw [h]
  norm_num [dataBothW, getBar, mkBar]

/-- C3: if the first day of the horizon at which any exit condition fires is
a clean intraday stop touch (`low ≤ stop price ≤ open`, target not reached,
no gap-down fired on or before), the outcome is StopLoss with exit price
exactly the stop-loss price and return exactly `-stop_loss_pct`. -/
theorem claim_C3 (data : List Bar) (buy_price : ℚ) (tp : TargetParams)
    (forecast_idx i : Nat) (hbp : 0 < buy_price)
    (hlen : forecast_idx + tp.in_days < data.length)
    (hday1 : ¬ (getBar data (forecast_idx + 1)).«open» <
      buy_price * (1 - tp.stop_loss))
    (hi1 : forecast_idx + 1 ≤ i) (hi2 : i ≤ forecast_idx + tp.in_days)
    (hbefore : ∀ j, forecast_idx + 1 ≤ j → j < i →
      noTrigger data buy_price (buy_price * (1 - tp.stop_loss)) tp forecast_idx j)
    (hnt : ¬ targetTrigger data buy_price tp i)
    (hstop : stopTrigger data (buy_price * (1 - tp.stop_loss)) i) :
    simulateSignal data buy_price tp forecast_idx =
      some ⟨-tp.stop_loss, i - forecast_idx, buy_price * (1 - tp.stop_loss),
        .StopLoss, false, true, false⟩ := by
  have h1 : ¬ buy_price ≤ 0 := not_le.mpr hbp
  have h2 : ¬ data.length ≤ forecast_idx + tp.in_days := not_le.mpr hlen
  have hng : ¬ gapTrigger data (buy_price * (1 - tp.stop_loss)) forecast_idx i :=
    fun hg => absurd hstop.2 (not_le.mpr hg.2)
  have hscan : scanFrom data buy_price (buy_price * (1 - tp.stop_loss)) tp
      forecast_idx (List.range' (forecast_idx + 1) tp.in_days) (-1) =
      .exit ⟨-tp.stop_loss, i - forecast_idx, buy_price * (1 - tp.stop_loss),
        .StopLoss, false, true, false⟩ := by
    rw [range'_split_at hi1 hi2]
    obtain ⟨m2, hm⟩ := scanFrom_append_of_noTrigger
      (List.range' (forecast_idx + 1) (i - (forecast_idx + 1))) _ (-1)
      (fun j hj => by
        rw [List.mem_range'_1] at hj
        exact hbefore j hj.1 (by omega))
    rw [hm]
    exact scanFrom_cons_stop hnt hng hstop _ _
  simp only [simulateSignal, if_neg h1, if_neg h2, if_neg hday1, hscan]

/-- C3 witness: the spec's clean-stop scenario — buy at 10, 5% stop,
horizon 3; day 1 open 10.1 low 9.6 close 9.8, day 2 open 9.7 low 9.2 close
9.4: StopLoss at exit price 9.5, return -5%, exit day 2. -/
theorem claim_C3_witness :
    simulateSignal dataCleanW 10 tpW3 0 =
      some ⟨-(1 / 20), 2, 19 / 2, .StopLoss, false, true, false⟩ := by
  have h := claim_C3 dataCleanW 10 tpW3 0 2 (by norm_num)
    (by norm_num [dataCleanW, tpW3])
    (by norm_num [dataCleanW, tpW3, getBar, mkBar])
    (by norm_num) (by norm_num [tpW3])
    (fun j hj1 hj2 => by
      have hj : j = 1 := by omega
      subst hj
      refine ⟨?_, ?_, ?_⟩
      · norm_num [targetTrigger, dataCleanW, tpW3, getBar, mkBar]
      · norm_num [gapTrigger, dataCleanW, tpW3, getBar, mkBar]
      · norm_num [stopTrigger, dataCleanW, tpW3, getBar, mkBar])
    (by norm_num [targetTrigger, dataCleanW, tpW3, getBar, mkBar])
    (by norm_num [stopTrigger, dataCleanW, tpW3, getBar, mkBar])
  rw [h]
  norm_num [tpW3]

/-- C5: `run_backtest` is exactly the arithmetic mean, over the offsets
`1..=back_days`, of the per-offset success rate of one independent pipeline
run (`run_single_test`, which is the target's score of the signals generated
from the selector's candidates at that offset) — a mean of per-offset rates,
not a pooled rate. -/
theorem claim_C5 {α : Type}
    (selectorRun : List (String × List Bar) → Nat → α)
    (generate_signals : α → Nat → List Signal)
    (targetRun : List Signal → Nat → ℚ)
    (stock_data : List (String × List Bar)) (back_days : Nat)
    (_hback : 1 ≤ back_days) :
    run_backtest selectorRun generate_signals targetRun stock_data back_days =
      (((List.range' 1 back_days).map (fun forecast_idx =>
        run_single_test selectorRun generate_signals targetRun stock_data
          forecast_idx)).sum) /
      (((List.range' 1 back_days).length : ℚ)) ∧
    ∀ forecast_idx,
      run_single_test selectorRun generate_signals targetRun stock_data
          forecast_idx =
        targetRun (generate_signals (selectorRun stock_data forecast_idx)
          forecast_idx) forecast_idx := by
  exact ⟨by rw [run_backtest, List.length_range'], fun _ => rfl⟩

/-- C5 witness: with a target whose per-offset rate equals the offset and
`back_days = 2`, `run_backtest` is `(1 + 2) / 2 = 3/2`, the mean of the two
per-offset rates. -/
theorem claim_C5_witness :
    run_backtest (fun sd _ => sd) (fun _ _ => ([] : List Signal))
      (fun _ forecast_idx => (forecast_idx : ℚ)) [] 2 = 3 / 2 := by
  have h := (claim_C5 (fun sd _ => sd) (fun _ _ => ([] : List Signal))
    (fun _ forecast_idx => (forecast_idx : ℚ)) [] 2 (by norm_num)).1
  rw [h]
  norm_num [run_single_test, List.range']

/-- Count fields of a non-empty merge are the sums of the inputs' count
fields. -/
theorem merge_counts (results : List BacktestResult) (h : results ≠ []) :
    (merge results).total_trades = (results.map (·.total_trades)).sum ∧
    (merge results).winning_trades = (results.map (·.winning_trades)).sum ∧
    (merge results).losing_trades = (results.map (·.losing_trades)).sum ∧
    (merge results).stop_loss_trades = (results.map (·.stop_loss_trades)).sum ∧
    (merge results).stop_loss_fail_trades =
      (results.map (·.stop_loss_fail_trades)).sum := by
  rw [merge, if_neg h]
  exact ⟨rfl, rfl, rfl, rfl, rfl⟩

/-- C8: `merge [a, b]` adds the five count fields (total, winning, losing,
stop-loss, stop-loss-failed), and on those count fields merge is associative
and commutative. -/
theorem claim_C8 (a b c : BacktestResult) :
    (merge [a, b]).total_trades = a.total_trades + b.total_trades ∧
    (merge [a, b]).winning_trades = a.winning_trades + b.winning_trades ∧
    (merge [a, b]).losing_trades = a.losing_trades + b.losing_trades ∧
    (merge [a, b]).stop_loss_trades = a.stop_loss_trades + b.stop_loss_trades ∧
    (merge [a, b]).stop_loss_fail_trades =
      a.stop_loss_fail_trades + b.stop_loss_fail_trades ∧
    countsOf (merge [merge [a, b], c]) = countsOf (merge [a, merge [b, c]]) ∧
    countsOf (merge [a, b]) = countsOf (merge [b, a]) := by
  have hab := merge_counts [a, b] (by simp)
  have hba := merge_counts [b, a] (by simp)
  have hbc := merge_counts [b, c] (by simp)
  have habc := merge_counts [merge [a, b], c] (by simp)
  have habc2 := merge_counts [a, merge [b, c]] (by simp)
  obtain ⟨t1, w1, l1, s1, f1⟩ := hab
  obtain ⟨t2, w2, l2, s2, f2⟩ := hba
  obtain ⟨t3, w3, l3, s3, f3⟩ := hbc
  obtain ⟨t4, w4, l4, s4, f4⟩ := habc
  obtain ⟨t5, w5, l5, s5, f5⟩ := habc2
  simp only [List.map_cons, List.map_nil, List.sum_cons, List.sum_nil] at *
  refine ⟨by omega, by omega, by omega, by omega, by omega, ?_, ?_⟩
  · simp only [countsOf, t4, t5, w4, w5, l4, l5, s4, s5, f4, f5, t1, w1, l1,
      s1, f1, t3, w3, l3, s3, f3]
    refine congrArg₂ _ (by omega) (congrArg₂ _ (by omega) (congrArg₂ _
      (by omega) (congrArg₂ _ (by omega) (by omega))))
  · simp only [countsOf, t1, w1, l1, s1, f1, t2, w2, l2, s2, f2]
    refine congrArg₂ _ (by omega) (congrArg₂ _ (by omega) (congrArg₂ _
      (by omega) (congrArg₂ _ (by omega) (by omega))))

/-- C4 (amended): the engine's `evaluate_signals` excludes a signal with
`buy_price ≤ 0` from `total_trades` and every other count and statistic —
prepending such a signal leaves the whole result unchanged. -/
theorem claim_C4 (sym : String) (data : List Bar) (buy_price : ℚ)
    (signals : List Signal) (tp : TargetParams) (forecast_idx : Nat)
    (collect_trade_details : Bool) (h : buy_price ≤ 0) :
    evaluateSignals (⟨sym, data, buy_price⟩ :: signals) tp forecast_idx
        collect_trade_details =
      evaluateSignals signals tp forecast_idx collect_trade_details := by
  have hsim : simulateSignal data buy_price tp forecast_idx = none := by
    rw [simulateSignal, if_pos h]
  have hsims : simOutcomes (⟨sym, data, buy_price⟩ :: signals) tp forecast_idx =
      simOutcomes signals tp forecast_idx := by
    simp only [simOutcomes, List.filterMap_cons, hsim, Option.map_none']
  simp only [evaluateSignals, hsims]

/-- C4 witness: a single zero-price signal evaluates to the same result as
the empty signal list; in particular `total_trades = 0`. -/
theorem claim_C4_witness :
    (evaluateSignals [⟨"b", sigBadW.data, 0⟩] tpW3 0 false).total_trades =
      0 := by
  rw [claim_C4 "b" sigBadW.data 0 [] tpW3 0 false le_rfl]
  rfl

/-- C4 counterexample: the default `Target::run` does not exclude a
zero-price signal — appending one to a succeeding candidate list changes the
success rate from 1 to 1/2, because the invalid signal stays in the
denominator as a failure. -/
theorem claim_C4_counterexample :
    Target.runDefault (GuardTarget.evaluate (1 / 10) 3) [sigGoodW] 0 = 1 ∧
    Target.runDefault (GuardTarget.evaluate (1 / 10) 3) [sigGoodW, sigBadW] 0 =
      1 / 2 := by
  constructor <;>
    norm_num [Target.runDefault, GuardTarget.evaluate, sigGoodW, sigBadW,
      getBar, mkBar, List.range', List.countP_cons, List.countP_nil]

/-!  Fold/extremum helper lemmas for C9. -/

theorem foldl_max_le_and_mem (l : List ℚ) (a : ℚ) :
    (a ≤ l.foldl (fun m r => max r m) a ∧
      ∀ r ∈ l, r ≤ l.foldl (fun m r => max r m) a) ∧
    l.foldl (fun m r => max r m) a ∈ a :: l := by
  induction l generalizing a with
  | nil => exact ⟨⟨le_rfl, by simp⟩, by simp⟩
  | cons x t ih =>
    have step : (x :: t).foldl (fun m r => max r m) a =
        t.foldl (fun m r => max r m) (max x a) := rfl
    have h1 := (ih (max x a)).1.1
    have h2 := (ih (max x a)).1.2
    have h3 := (ih (max x a)).2
    refine ⟨⟨?_, ?_⟩, ?_⟩
    · rw [step]; exact le_trans (le_max_right x a) h1
    · intro r hr
      rw [step]
      rcases List.mem_cons.mp hr with rfl | h
      · exact le_trans (le_max_left r a) h1
      · exact h2 r h
    · rw [step]
      rcases List.mem_cons.mp h3 with h | h
      · rcases max_choice x a with hm | hm
        · rw [h, hm]; exact List.mem_cons_of_mem a (List.mem_cons_self x t)
        · rw [h, hm]; exact List.mem_cons_self a (x :: t)
      · exact List.mem_cons_of_mem a (List.mem_cons_of_mem x h)

theorem foldl_min_le_and_mem (l : List ℚ) (a : ℚ) :
    (l.foldl (fun m r => min r m) a ≤ a ∧
      ∀ r ∈ l, l.foldl (fun m r => min r m) a ≤ r) ∧
    l.foldl (fun m r => min r m) a ∈ a :: l := by
  induction l generalizing a with
  | nil => exact ⟨⟨le_rfl, by simp⟩, by simp⟩
  | cons x t ih =>
    have step : (x :: t).foldl (fun m r => min r m) a =
        t.foldl (fun m r => min r m) (min x a) := rfl
    have h1 := (ih (min x a)).1.1
    have h2 := (ih (min x a)).1.2
    have h3 := (ih (min x a)).2
    refine ⟨⟨?_, ?_⟩, ?_⟩
    · rw [step]; exact le_trans h1 (min_le_right x a)
    · intro r hr
      rw [step]
      rcases List.mem_cons.mp hr with rfl | h
      · exact le_trans h1 (min_le_left r a)
      · exact h2 r h
    · rw [step]
      rcases List.mem_cons.mp h3 with h | h
      · rcases min_choice x a with hm | hm
        · rw [h, hm]; exact List.mem_cons_of_mem a (List.mem_cons_self x t)
        · rw [h, hm]; exact List.mem_cons_self a (x :: t)
      · exact List.mem_cons_of_mem a (List.mem_cons_of_mem x h)

theorem evaluateSignals_max_return (signals : List Signal) (tp : TargetParams)
    (forecast_idx : Nat) (collect_trade_details : Bool) :
    (evaluateSignals signals tp forecast_idx collect_trade_details).max_return =
      (returnsOf signals tp forecast_idx).foldl (fun m r => max r m) 0 := rfl

theorem evaluateSignals_max_loss (signals : List Signal) (tp : TargetParams)
    (forecast_idx : Nat) (collect_trade_details : Bool) :
    (evaluateSignals signals tp forecast_idx collect_trade_details).max_loss =
      (returnsOf signals tp forecast_idx).foldl (fun m r => min r m) 0 := rfl

/-- C9 (amended): the `max_return` field is the maximum of the per-trade
return list **and 0** (the source seeds the fold with 0.0), and `max_loss`
is the minimum of the per-trade return list **and 0**: each is an upper
(resp. lower) bound of the return list, is itself nonnegative
(resp. nonpositive), and is either 0 or an element of the list.  They equal
the true maximum/minimum only when the list reaches that far. -/
theorem claim_C9 (signals : List Signal) (tp : TargetParams)
    (forecast_idx : Nat) (collect_trade_details : Bool) :
    (∀ r ∈ returnsOf signals tp forecast_idx,
      r ≤ (evaluateSignals signals tp forecast_idx
        collect_trade_details).max_return ∧
      (evaluateSignals signals tp forecast_idx
        collect_trade_details).max_loss ≤ r) ∧
    0 ≤ (evaluateSignals signals tp forecast_idx
      collect_trade_details).max_return ∧
    (evaluateSignals signals tp forecast_idx
      collect_trade_details).max_loss ≤ 0 ∧
    (evaluateSignals signals tp forecast_idx collect_trade_details).max_return ∈
      (0 : ℚ) :: returnsOf signals tp forecast_idx ∧
    (evaluateSignals signals tp forecast_idx collect_trade_details).max_loss ∈
      (0 : ℚ) :: returnsOf signals tp forecast_idx := by
  rw [evaluateSignals_max_return, evaluateSignals_max_loss]
  have hmax := foldl_max_le_and_mem (returnsOf signals tp forecast_idx) 0
  have hmin := foldl_min_le_and_mem (returnsOf signals tp forecast_idx) 0
  exact ⟨fun r hr => ⟨hmax.1.2 r hr, hmin.1.2 r hr⟩, hmax.1.1, hmin.1.1,
    hmax.2, hmin.2⟩

/-- C9 counterexample: a single clean-stop trade has per-trade return list
`[-1/20]`, whose maximum is `-1/20`, but the result's `max_return` field is
`0` — not even an element of the return list. -/
theorem claim_C9_counterexample :
    (evaluateSignals [sigStopW] tpW1 0 false).max_return = 0 ∧
    returnsOf [sigStopW] tpW1 0 = [-(1 / 20)] ∧
    (evaluateSignals [sigStopW] tpW1 0 false).max_return ∉
      returnsOf [sigStopW] tpW1 0 := by
  have h2 : returnsOf [sigStopW] tpW1 0 = [-(1 / 20)] := by
    norm_num [returnsOf, simOutcomes, simulateSignal, scanFrom, getBar,
      sigStopW, tpW1, mkBar, List.range', List.filterMap_cons]
  have h1 : (evaluateSignals [sigStopW] tpW1 0 false).max_return = 0 := by
    rw [evaluateSignals_max_return, h2]
    norm_num
  refine ⟨h1, h2, ?_⟩
  rw [h1, h2]
  norm_num

/-- C6 (amended): within one engine evaluation, disabling
`collect_trade_details` changes no numeric field of the produced
`BacktestResult` — every field except the optional detail list is
identical. -/
theorem claim_C6 (signals : List Signal) (tp : TargetParams)
    (forecast_idx : Nat) :
    numericFields (evaluateSignals signals tp forecast_idx true) =
      numericFields (evaluateSignals signals tp forecast_idx false) := rfl

/-- C6 counterexample: `merge` recomputes Sharpe ratio and max drawdown from
the detail-derived return list, so the collect flag does change merged
numerics — merging the same evaluation gives max drawdown 1/20 with the flag
on but 0 with the flag off. -/
theorem claim_C6_counterexample :
    (merge [evaluateSignals [sigWinW, sigStopW] tpW1 0 true]).max_drawdown =
      1 / 20 ∧
    (merge [evaluateSignals [sigWinW, sigStopW] tpW1 0 false]).max_drawdown =
      0 := by
  constructor
  · norm_num [merge, evaluateSignals, simOutcomes, simulateSignal, scanFrom,
      getBar, sigWinW, sigStopW, tpW1, mkBar, List.range',
      calculate_advanced_metrics, calculate_max_drawdown,
      calculate_sharpe_ratio, mkTradeDetail, List.filterMap_cons,
      BacktestResult.new]
    simp
  · norm_num [merge, evaluateSignals, simOutcomes, simulateSignal, scanFrom,
      getBar, sigWinW, sigStopW, tpW1, mkBar, List.range',
      calculate_advanced_metrics, calculate_max_drawdown,
      calculate_sharpe_ratio, mkTradeDetail, List.filterMap_cons,
      BacktestResult.new]

/-!  Flag/reason coherence lemmas for C7. -/

/-- Let-free unfolding of `simulateSignal`. -/
theorem simulateSignal_eq (data : List Bar) (buy_price : ℚ)
    (tp : TargetParams) (forecast_idx : Nat) :
    simulateSignal data buy_price tp forecast_idx =
      if buy_price ≤ 0 then none
      else if data.length ≤ forecast_idx + tp.in_days then none
      else if (getBar data (forecast_idx + 1)).«open» <
          buy_price * (1 - tp.stop_loss) then
        some ⟨((getBar data (forecast_idx + 1)).«open» - buy_price) / buy_price,
          1, (getBar data (forecast_idx + 1)).«open», .StopLossFailed,
          false, false, true⟩
      else
        match scanFrom data buy_price (buy_price * (1 - tp.stop_loss)) tp
            forecast_idx (List.range' (forecast_idx + 1) tp.in_days) (-1) with
        | .exit o => some o
        | .expire _ =>
          some (if tp.in_days = 1 then
            if (getBar data (forecast_idx + 1)).low ≤
                buy_price * (1 - tp.stop_loss) then
              if (getBar data (forecast_idx + 1)).«open» <
                  buy_price * (1 - tp.stop_loss) then
                ⟨((getBar data (forecast_idx + 1)).«open» - buy_price) /
                  buy_price, tp.in_days,
                  (getBar data (forecast_idx + 1)).«open», .StopLossFailed,
                  false, false, true⟩
              else
                ⟨-tp.stop_loss, tp.in_days, buy_price * (1 - tp.stop_loss),
                  .StopLoss, false, true, false⟩
            else
              ⟨((getBar data (forecast_idx + tp.in_days)).close - buy_price) /
                buy_price, tp.in_days,
                (getBar data (forecast_idx + tp.in_days)).close, .TimeExpired,
                false, false, false⟩
          else
            ⟨((getBar data (forecast_idx + tp.in_days)).close - buy_price) /
              buy_price, tp.in_days,
              (getBar data (forecast_idx + tp.in_days)).close, .TimeExpired,
              false, false, false⟩) := rfl

theorem scanFrom_flags (data : List Bar) (buy_price stop_loss_price : ℚ)
    (tp : TargetParams) (forecast_idx : Nat) (l : List Nat) :
    ∀ (m : ℚ) (o : TradeOutcome),
      scanFrom data buy_price stop_loss_price tp forecast_idx l m = .exit o →
      FlagsOk o := by
  induction l with
  | nil =>
    intro m o h
    exact absurd h (by simp [scanFrom])
  | cons i rest ih =>
    intro m o h
    rw [scanFrom] at h
    split_ifs at h with h1 h2 h3 h4
    · cases h; simp [FlagsOk]
    · cases h; simp [FlagsOk]
    · cases h; simp [FlagsOk]
    · exact ih _ o h
    · exact ih _ o h

theorem simulateSignal_flags (data : List Bar) (buy_price : ℚ)
    (tp : TargetParams) (forecast_idx : Nat) (o : TradeOutcome)
    (h : simulateSignal data buy_price tp forecast_idx = some o) :
    FlagsOk o := by
  rw [simulateSignal_eq] at h
  by_cases h1 : buy_price ≤ 0
  · rw [if_pos h1] at h; exact absurd h (by simp)
  rw [if_neg h1] at h
  by_cases h2 : data.length ≤ forecast_idx + tp.in_days
  · rw [if_pos h2] at h; exact absurd h (by simp)
  rw [if_neg h2] at h
  by_cases h3 : (getBar data (forecast_idx + 1)).«open» <
      buy_price * (1 - tp.stop_loss)
  · rw [if_pos h3] at h
    cases h
    simp [FlagsOk]
  rw [if_neg h3] at h
  cases hscan : scanFrom data buy_price (buy_price * (1 - tp.stop_loss)) tp
      forecast_idx (List.range' (forecast_idx + 1) tp.in_days) (-1) with
  | exit o2 =>
    rw [hscan] at h
    simp only [Option.some.injEq] at h
    subst h
    exact scanFrom_flags data buy_price (buy_price * (1 - tp.stop_loss)) tp
      forecast_idx _ _ o2 hscan
  | expire m =>
    rw [hscan] at h
    simp only [Option.some.injEq] at h
    subst h
    split_ifs <;> simp [FlagsOk]

theorem simOutcomes_flags (signals : List Signal) (tp : TargetParams)
    (forecast_idx : Nat) :
    ∀ so ∈ simOutcomes signals tp forecast_idx, FlagsOk so.2 := by
  intro so hso
  rw [simOutcomes, List.mem_filterMap] at hso
  obtain ⟨s, _hs, hmap⟩ := hso
  cases hsim : simulateSignal s.data s.buy_price tp forecast_idx with
  | none => rw [hsim] at hmap; simp at hmap
  | some o =>
    rw [hsim] at hmap
    simp only [Option.map_some', Option.some.injEq] at hmap
    cases hmap
    exact simulateSignal_flags s.data s.buy_price tp forecast_idx o hsim

theorem countP_reason_partition (l : List (Signal × TradeOutcome)) :
    l.countP (fun so => decide (so.2.exit_reason = ExitReason.TargetReached)) +
    l.countP (fun so => decide (so.2.exit_reason = ExitReason.StopLoss)) +
    l.countP (fun so => decide (so.2.exit_reason = ExitReason.StopLossFailed)) +
    l.countP (fun so => decide (so.2.exit_reason = ExitReason.TimeExpired)) =
    l.length := by
  induction l with
  | nil => rfl
  | cons x t ih =>
    simp only [List.countP_cons, List.length_cons]
    cases hx : x.2.exit_reason <;> simp [hx] <;> omega

/-- C7: in every evaluation, each simulated trade carries exactly one exit
reason; the winning count is the TargetReached count, the stop-loss and
stop-loss-failed counts are the matching reason counts, the four reason
counts sum to `total_trades`, winning + losing = total, and the losing count
is the sum of the StopLoss, StopLossFailed and TimeExpired counts. -/
theorem claim_C7 (signals : List Signal) (tp : TargetParams)
    (forecast_idx : Nat) (collect_trade_details : Bool) :
    (evaluateSignals signals tp forecast_idx collect_trade_details).winning_trades +
      (evaluateSignals signals tp forecast_idx collect_trade_details).losing_trades =
      (evaluateSignals signals tp forecast_idx collect_trade_details).total_trades ∧
    (evaluateSignals signals tp forecast_idx collect_trade_details).winning_trades =
      reasonCount signals tp forecast_idx .TargetReached ∧
    (evaluateSignals signals tp forecast_idx collect_trade_details).stop_loss_trades =
      reasonCount signals tp forecast_idx .StopLoss ∧
    (evaluateSignals signals tp forecast_idx
        collect_trade_details).stop_loss_fail_trades =
      reasonCount signals tp forecast_idx .StopLossFailed ∧
    reasonCount signals tp forecast_idx .TargetReached +
      reasonCount signals tp forecast_idx .StopLoss +
      reasonCount signals tp forecast_idx .StopLossFailed +
      reasonCount signals tp forecast_idx .TimeExpired =
      (evaluateSignals signals tp forecast_idx collect_trade_details).total_trades ∧
    (evaluateSignals signals tp forecast_idx collect_trade_details).losing_trades =
      reasonCount signals tp forecast_idx .StopLoss +
      reasonCount signals tp forecast_idx .StopLossFailed +
      reasonCount signals tp forecast_idx .TimeExpired := by
  have hflags := simOutcomes_flags signals tp forecast_idx
  have ht : (evaluateSignals signals tp forecast_idx
      collect_trade_details).total_trades =
      (simOutcomes signals tp forecast_idx).length := rfl
  have hw : (evaluateSignals signals tp forecast_idx
      collect_trade_details).winning_trades =
      (simOutcomes signals tp forecast_idx).countP
        (fun so => so.2.is_win) := rfl
  have hl : (evaluateSignals signals tp forecast_idx
      collect_trade_details).losing_trades =
      (simOutcomes signals tp forecast_idx).countP
        (fun so => !so.2.is_win) := rfl
  have hs : (evaluateSignals signals tp forecast_idx
      collect_trade_details).stop_loss_trades =
      (simOutcomes signals tp forecast_idx).countP
        (fun so => !so.2.is_win && so.2.is_stop_loss) := rfl
  have hf : (evaluateSignals signals tp forecast_idx
      collect_trade_details).stop_loss_fail_trades =
      (simOutcomes signals tp forecast_idx).countP
        (fun so => !so.2.is_win && so.2.is_stop_loss_fail) := rfl
  have hwin : (simOutcomes signals tp forecast_idx).countP
      (fun so => so.2.is_win) =
      reasonCount signals tp forecast_idx .TargetReached := by
    apply List.countP_congr
    intro x hx
    simpa using (hflags x hx).1
  have hstop : (simOutcomes signals tp forecast_idx).countP
      (fun so => !so.2.is_win && so.2.is_stop_loss) =
      reasonCount signals tp forecast_idx .StopLoss := by
    apply List.countP_congr
    intro x hx
    simpa [Bool.and_eq_true, Bool.not_eq_true'] using (hflags x hx).2.1
  have hfail : (simOutcomes signals tp forecast_idx).countP
      (fun so => !so.2.is_win && so.2.is_stop_loss_fail) =
      reasonCount signals tp forecast_idx .StopLossFailed := by
    apply List.countP_congr
    intro x hx
    simpa [Bool.and_eq_true, Bool.not_eq_true'] using (hflags x hx).2.2.1
  have hlen := List.length_eq_countP_add_countP
    (p := fun (so : Signal × TradeOutcome) => so.2.is_win)
    (simOutcomes signals tp forecast_idx)
  have hnot : (simOutcomes signals tp forecast_idx).countP
      (fun so => !so.2.is_win) =
      (simOutcomes signals tp forecast_idx).countP
        (fun so => ¬ so.2.is_win) := by
    apply List.countP_congr
    intro x _
    simp [Bool.not_eq_true']
  have hpart := countP_reason_partition (simOutcomes signals tp forecast_idx)
  have hrc : ∀ reason, reasonCount signals tp forecast_idx reason =
      (simOutcomes signals tp forecast_idx).countP
        (fun so => decide (so.2.exit_reason = reason)) := fun _ => rfl
  rw [ht, hw, hl, hs, hf, hwin, hstop, hfail, hnot, hrc, hrc, hrc, hrc]
  rw [hrc, hnot] at *
  omega

/-!  Bounds-checked simulation lemmas for C10. -/

theorem get?_of_lt {l : List Bar} {i : Nat} (h : i < l.length) :
    l.get? i = some (getBar l i) := by
  rw [List.get?_eq_getElem?, List.getElem?_eq_getElem h, getBar,
    List.getD_eq_getElem?_getD, List.getElem?_eq_getElem h]
  rfl

/-- Let-free unfolding of `simulateSignalChecked`. -/
theorem simulateSignalChecked_eq (data : List Bar) (buy_price : ℚ)
    (tp : TargetParams) (forecast_idx : Nat) :
    simulateSignalChecked data buy_price tp forecast_idx =
      if buy_price ≤ 0 then .skipped
      else if data.length ≤ forecast_idx + tp.in_days then .skipped
      else
        match data.get? (forecast_idx + 1) with
        | none => .oob
        | some d1 =>
          if d1.«open» < buy_price * (1 - tp.stop_loss) then
            .done ⟨(d1.«open» - buy_price) / buy_price, 1, d1.«open»,
              .StopLossFailed, false, false, true⟩
          else
            match scanFromChecked data buy_price (buy_price * (1 - tp.stop_loss))
                tp forecast_idx (List.range' (forecast_idx + 1) tp.in_days)
                (-1) with
            | none => .oob
            | some (.exit o) => .done o
            | some (.expire _) =>
              match data.get? (forecast_idx + tp.in_days) with
              | none => .oob
              | some last =>
                if tp.in_days = 1 then
                  match data.get? (forecast_idx + 1) with
                  | none => .oob
                  | some d =>
                    if d.low ≤ buy_price * (1 - tp.stop_loss) then
                      if d.«open» < buy_price * (1 - tp.stop_loss) then
                        .done ⟨(d.«open» - buy_price) / buy_price, tp.in_days,
                          d.«open», .StopLossFailed, false, false, true⟩
                      else
                        .done ⟨-tp.stop_loss, tp.in_days,
                          buy_price * (1 - tp.stop_loss), .StopLoss,
                          false, true, false⟩
                    else
                      .done ⟨(last.close - buy_price) / buy_price, tp.in_days,
                        last.close, .TimeExpired, false, false, false⟩
                else
                  .done ⟨(last.close - buy_price) / buy_price, tp.in_days,
                    last.close, .TimeExpired, false, false, false⟩ := rfl

theorem scanFromChecked_eq (data : List Bar) (buy_price stop_loss_price : ℚ)
    (tp : TargetParams) (forecast_idx : Nat) (l : List Nat) :
    ∀ m : ℚ, (∀ i ∈ l, i < data.length) →
      scanFromChecked data buy_price stop_loss_price tp forecast_idx l m =
        some (scanFrom data buy_price stop_loss_price tp forecast_idx l m) := by
  induction l with
  | nil => intro m _; rfl
  | cons i rest ih =>
    intro m hb
    rw [scanFromChecked, scanFrom,
      get?_of_lt (hb i (List.mem_cons_self i rest))]
    dsimp only
    split_ifs with h1 h2 h3 h4
    · rfl
    · rfl
    · rfl
    · exact ih _ (fun j hj => hb j (List.mem_cons_of_mem i hj))
    · exact ih _ (fun j hj => hb j (List.mem_cons_of_mem i hj))

theorem scanFrom_exit_day (data : List Bar) (buy_price stop_loss_price : ℚ)
    (tp : TargetParams) (forecast_idx : Nat) (l : List Nat) :
    ∀ (m : ℚ) (o : TradeOutcome),
      scanFrom data buy_price stop_loss_price tp forecast_idx l m = .exit o →
      ∃ i ∈ l, o.exit_day = i - forecast_idx := by
  induction l with
  | nil =>
    intro m o h
    exact absurd h (by simp [scanFrom])
  | cons i rest ih =>
    intro m o h
    rw [scanFrom] at h
    split_ifs at h with h1 h2 h3 h4
    · cases h; exact ⟨i, List.mem_cons_self i rest, rfl⟩
    · cases h; exact ⟨i, List.mem_cons_self i rest, rfl⟩
    · cases h; exact ⟨i, List.mem_cons_self i rest, rfl⟩
    · obtain ⟨j, hj, he⟩ := ih _ o h
      exact ⟨j, List.mem_cons_of_mem i hj, he⟩
    · obtain ⟨j, hj, he⟩ := ih _ o h
      exact ⟨j, List.mem_cons_of_mem i hj, he⟩

/-- C10 (amended): for a horizon of at least one day, a signal passing the
preconditions (`buy_price > 0`, `length > forecast_idx + in_days`) is
simulated without any out-of-bounds series access — the bounds-checked
simulation completes with the same outcome — and the exit day lies in
`1..=in_days`, so the indices `forecast_idx` and `forecast_idx + exit_day`
touched by trade-detail recording are in bounds as well. -/
theorem claim_C10 (data : List Bar) (buy_price : ℚ) (tp : TargetParams)
    (forecast_idx : Nat) (hbp : 0 < buy_price)
    (hlen : forecast_idx + tp.in_days < data.length)
    (hdays : 1 ≤ tp.in_days) :
    ∃ o, simulateSignal data buy_price tp forecast_idx = some o ∧
      simulateSignalChecked data buy_price tp forecast_idx = .done o ∧
      1 ≤ o.exit_day ∧ o.exit_day ≤ tp.in_days ∧
      forecast_idx < data.length ∧
      forecast_idx + o.exit_day < data.length := by
  have h1 : ¬ buy_price ≤ 0 := not_le.mpr hbp
  have h2 : ¬ data.length ≤ forecast_idx + tp.in_days := not_le.mpr hlen
  have hf1 : forecast_idx + 1 < data.length := by omega
  have hflen : forecast_idx < data.length := by omega
  have hget1 := get?_of_lt hf1
  have hgetlast := get?_of_lt hlen
  by_cases h3 : (getBar data (forecast_idx + 1)).«open» <
      buy_price * (1 - tp.stop_loss)
  · refine ⟨⟨((getBar data (forecast_idx + 1)).«open» - buy_price) / buy_price,
      1, (getBar data (forecast_idx + 1)).«open», .StopLossFailed,
      false, false, true⟩, ?_, ?_, le_rfl, hdays, hflen, hf1⟩
    · rw [simulateSignal_eq, if_neg h1, if_neg h2, if_pos h3]
    · rw [simulateSignalChecked_eq, if_neg h1, if_neg h2, hget1]
      simp only [if_pos h3]
  · have hbounds : ∀ i ∈ List.range' (forecast_idx + 1) tp.in_days,
        i < data.length := by
      intro i hi
      rw [List.mem_range'_1] at hi
      omega
    have hchk := scanFromChecked_eq data buy_price
      (buy_price * (1 - tp.stop_loss)) tp forecast_idx
      (List.range' (forecast_idx + 1) tp.in_days) (-1) hbounds
    cases hscan : scanFrom data buy_price (buy_price * (1 - tp.stop_loss)) tp
        forecast_idx (List.range' (forecast_idx + 1) tp.in_days) (-1) with
    | exit o =>
      obtain ⟨i, hi, hexit⟩ := scanFrom_exit_day data buy_price
        (buy_price * (1 - tp.stop_loss)) tp forecast_idx _ _ o hscan
      rw [List.mem_range'_1] at hi
      refine ⟨o, ?_, ?_, by omega, by omega, hflen, by omega⟩
      · rw [simulateSignal_eq, if_neg h1, if_neg h2, if_neg h3, hscan]
      · rw [simulateSignalChecked_eq, if_neg h1, if_neg h2, hget1]
        rw [hscan] at hchk
        simp only [if_neg h3, hchk]
    | expire m =>
      rw [hscan] at hchk
      by_cases hd : tp.in_days = 1
      · by_cases h4 : (getBar data (forecast_idx + 1)).low ≤
            buy_price * (1 - tp.stop_loss)
        · refine ⟨⟨-tp.stop_loss, tp.in_days, buy_price * (1 - tp.stop_loss),
            .StopLoss, false, true, false⟩, ?_, ?_, hdays, le_rfl, hflen,
            hlen⟩
          · rw [simulateSignal_eq, if_neg h1, if_neg h2, if_neg h3, hscan]
            simp only [if_pos hd, if_pos h4, if_neg h3]
          · rw [simulateSignalChecked_eq, if_neg h1, if_neg h2, hget1]
            simp only [if_neg h3, hchk, hgetlast, if_pos hd, hget1,
              if_pos h4]
        · refine ⟨⟨((getBar data (forecast_idx + tp.in_days)).close -
            buy_price) / buy_price, tp.in_days,
            (getBar data (forecast_idx + tp.in_days)).close, .TimeExpired,
            false, false, false⟩, ?_, ?_, hdays, le_rfl, hflen, hlen⟩
          · rw [simulateSignal_eq, if_neg h1, if_neg h2, if_neg h3, hscan]
            simp only [if_pos hd, if_neg h4]
          · rw [simulateSignalChecked_eq, if_neg h1, if_neg h2, hget1]
            simp only [if_neg h3, hchk, hgetlast, if_pos hd, hget1,
              if_neg h4]
      · refine ⟨⟨((getBar data (forecast_idx + tp.in_days)).close -
          buy_price) / buy_price, tp.in_days,
          (getBar data (forecast_idx + tp.in_days)).close, .TimeExpired,
          false, false, false⟩, ?_, ?_, hdays, le_rfl, hflen, hlen⟩
        · rw [simulateSignal_eq, if_neg h1, if_neg h2, if_neg h3, hscan]
          simp only [if_neg hd]
        · rw [simulateSignalChecked_eq, if_neg h1, if_neg h2, hget1]
          simp only [if_neg h3, hchk, hgetlast, if_neg hd]

/-- C10 witness: the clean-stop fixture (buy 10, 3-day horizon, 4-day
series) is simulated without out-of-bounds access, exiting on day 2. -/
theorem claim_C10_witness :
    simulateSignalChecked dataCleanW 10 tpW3 0 =
      .done ⟨-(1 / 20), 2, 19 / 2, .StopLoss, false, true, false⟩ := by
  obtain ⟨o, h1, h2, _⟩ := claim_C10 dataCleanW 10 tpW3 0 (by norm_num)
    (by norm_num [dataCleanW, tpW3]) (by norm_num [tpW3])
  have ho : o = ⟨-(1 / 20), 2, 19 / 2, .StopLoss, false, true, false⟩ := by
    have hsim : simulateSignal dataCleanW 10 tpW3 0 =
        some ⟨-(1 / 20), 2, 19 / 2, .StopLoss, false, true, false⟩ := by
      norm_num [simulateSignal, scanFrom, getBar, dataCleanW, tpW3, mkBar,
        List.range']
    rw [h1] at hsim
    exact Option.some.inj hsim
  rw [h2, ho]

/-- C10 counterexample: with a zero-day horizon the stated preconditions
hold (`buy_price = 1 > 0`, series length `1 > forecast_idx + in_days = 0`)
yet the simulation reads day `forecast_idx + 1 = 1`, one past the end of the
series — an out-of-bounds access outside `forecast_idx..=forecast_idx +
in_days`. -/
theorem claim_C10_counterexample :
    (0 : ℚ) < 1 ∧
    0 + tpZeroW.in_days < ([mkBar 10 10 10 10 100] : List Bar).length ∧
    simulateSignalChecked [mkBar 10 10 10 10 100] 1 tpZeroW 0 = .oob := by
  refine ⟨by norm_num, by norm_num [tpZeroW], ?_⟩
  norm_num [simulateSignalChecked, scanFromChecked, tpZeroW, mkBar,
    List.get?]

end StrategyLab
